import Mathlib

/-!
Shallow embedding of the MovieVault single-page application (src/src/App.tsx).

The React component's state hooks become fields of `AppState`; the browser's
durable storage slot `movieVaultBookmarks` becomes the `storage` field of
`World` (it holds the JSON-decoded list of identifiers; the browser's
JSON.stringify/JSON.parse round-trip is treated as the identity on integer
lists). Each event handler becomes a pure state transformer; network
behaviour is supplied as a `FetchResult` argument, and every transformer
additionally returns the list of network requests it issued, so that
short-circuiting before network activity is visible in the model.
-/

namespace MovieVault

/-- The `Movie` interface of App.tsx (id, title, poster_path, vote_average,
overview, release_date). -/
structure Movie where
  id : Int
  title : String
  poster_path : String
  vote_average : Float
  overview : String
  release_date : String

/-- The component state held by the `useState` hooks of `App`. -/
structure AppState where
  movies : List Movie
  loading : Bool
  searchQuery : String
  bookmarks : List Int
  selectedMovie : Option Movie
  error : Option String
  showBookmarksOnly : Bool

/-- The durable storage slot together with the in-memory component state.
`storage` models `localStorage.getItem('movieVaultBookmarks')` after JSON
decoding (`none` = slot absent). -/
structure World where
  app : AppState
  storage : Option (List Int)

/-- Outcome of one `fetch` call: the response resolved with a JSON object
carrying a `results` array, resolved without a `results` field, or failed
(non-ok HTTP status or a thrown transport error). -/
inductive FetchResult where
  | success (results : List Movie)
  | missingResults
  | failure

/-- A network request issued by the app: the trending endpoint or the
search endpoint with its query text. -/
inductive NetRequest where
  | trending
  | search (query : String)
deriving DecidableEq

/-- Error text set when `TMDB_API_KEY` is absent. -/
def apiKeyMissingError : String :=
  "API key is missing. Please add your TMDB API key to the .env file."

/-- Error text set when the trending fetch throws or returns non-ok. -/
def trendingFailError : String := "Failed to fetch movies. Please try again later."

/-- Error text set when the search fetch throws or returns non-ok. -/
def searchFailError : String := "Failed to search movies. Please try again later."

/-- Error text set when a response has no `results` field. -/
def noMoviesError : String := "No movies found"

/-- Error text set when a search resolves with an empty `results` array. -/
def noSearchResultsError : String := "No movies found for your search"

/-- Toast text for removing a bookmark. -/
def removedToast : String := "Removed from bookmarks"

/-- Toast text for adding a bookmark. -/
def addedToast : String := "Added to bookmarks"

/-- `fetchTrendingMovies` of App.tsx. Missing key: set the configuration
error, clear loading, issue no request. Otherwise clear error, set loading,
clear the bookmarks-only flag and the query text, fetch, and dispatch on the
response; `finally` clears loading in every branch. -/
def fetchTrendingMovies (apiKey : Option String) (outcome : FetchResult)
    (s : AppState) : AppState × List NetRequest :=
  match apiKey with
  | none => ({ s with error := some apiKeyMissingError, loading := false }, [])
  | some _ =>
    let s1 : AppState :=
      { s with error := none, loading := true, showBookmarksOnly := false,
               searchQuery := "" }
    match outcome with
    | .success results =>
        ({ s1 with movies := results, loading := false }, [NetRequest.trending])
    | .missingResults =>
        ({ s1 with movies := [], error := some noMoviesError, loading := false },
         [NetRequest.trending])
    | .failure =>
        ({ s1 with movies := [], error := some trendingFailError, loading := false },
         [NetRequest.trending])

/-- JavaScript's `String.prototype.trim`: strip leading and trailing
whitespace. (Modelled over the character list so that it evaluates by
kernel reduction; `String.trim` of the core library computes the same
strip via byte positions.) -/
def jsTrim (s : String) : String :=
  String.mk (((s.data.dropWhile Char.isWhitespace).reverse.dropWhile
    Char.isWhitespace).reverse)

/-- `searchMovies` of App.tsx. Missing key: set the configuration error and
return (no request, and no `setLoading(false)` in this branch). Blank or
whitespace-only query: delegate to `fetchTrendingMovies`. Otherwise clear
error, set loading, clear the bookmarks-only flag, fetch the search endpoint
and dispatch on the response; an empty `results` array additionally sets the
no-results error text. -/
def searchMovies (apiKey : Option String) (query : String)
    (trendingOutcome searchOutcome : FetchResult) (s : AppState) :
    AppState × List NetRequest :=
  match apiKey with
  | none => ({ s with error := some apiKeyMissingError }, [])
  | some k =>
    if jsTrim query = "" then
      fetchTrendingMovies (some k) trendingOutcome s
    else
      let s1 : AppState :=
        { s with error := none, loading := true, showBookmarksOnly := false }
      match searchOutcome with
      | .success results =>
          ({ s1 with movies := results,
                     error := if results.length = 0 then some noSearchResultsError
                              else none,
                     loading := false }, [NetRequest.search query])
      | .missingResults =>
          ({ s1 with movies := [], error := some noMoviesError, loading := false },
           [NetRequest.search query])
      | .failure =>
          ({ s1 with movies := [], error := some searchFailError, loading := false },
           [NetRequest.search query])

/-- The bookmark-list update inside `toggleBookmark`: remove every occurrence
if present (`bookmarks.filter((id) => id !== movieId)`), else append
(`[...bookmarks, movieId]`). -/
def toggleList (movieId : Int) (bookmarks : List Int) : List Int :=
  if bookmarks.contains movieId then bookmarks.filter (fun id => id != movieId)
  else bookmarks ++ [movieId]

/-- `toggleBookmark` of App.tsx: update the in-memory list, write the full
new list to the storage slot, and return the toast text chosen from the
pre-toggle membership test. -/
def toggleBookmark (movieId : Int) (w : World) : World × String :=
  let newBookmarks := toggleList movieId w.app.bookmarks
  ({ app := { w.app with bookmarks := newBookmarks },
     storage := some newBookmarks },
   if w.app.bookmarks.contains movieId then removedToast else addedToast)

/-- The derived `displayedMovies` value of App.tsx. -/
def displayedMovies (s : AppState) : List Movie :=
  if s.showBookmarksOnly then
    s.movies.filter (fun movie => s.bookmarks.contains movie.id)
  else s.movies

/-- The initial values of the `useState` hooks. -/
def initialState : AppState :=
  { movies := [], loading := true, searchQuery := "", bookmarks := [],
    selectedMovie := none, error := none, showBookmarksOnly := false }

/-- The mount-time `useEffect` of App.tsx, starting from the initial hook
values. Missing key: set the configuration error, clear loading and return
early — in particular the storage read below the early return is skipped.
Otherwise run the trending fetch and then load the bookmark list from the
storage slot when the slot is present. -/
def startup (apiKey : Option String) (outcome : FetchResult)
    (storage : Option (List Int)) : World × List NetRequest :=
  match apiKey with
  | none =>
      ({ app := { initialState with
                    error := some apiKeyMissingError, loading := false },
         storage := storage }, [])
  | some k =>
      let fetched := fetchTrendingMovies (some k) outcome initialState
      let s2 : AppState :=
        match storage with
        | some saved => { fetched.1 with bookmarks := saved }
        | none => fetched.1
      ({ app := s2, storage := storage }, fetched.2)

/-- Apply a finite sequence of bookmark toggles, left to right. -/
def applyToggles (ids : List Int) (w : World) : World :=
  ids.foldl (fun w id => (toggleBookmark id w).1) w

/-- The storage slot, when present, holds a duplicate-free list. -/
def storageNodup (storage : Option (List Int)) : Prop :=
  ∀ l, storage = some l → l.Nodup

lemma mem_toggleList_iff (movieId x : Int) (l : List Int) :
    x ∈ toggleList movieId l ↔
      (x ∈ l ∧ x ≠ movieId) ∨ (x = movieId ∧ movieId ∉ l) := by
  by_cases h : movieId ∈ l <;>
    simp [toggleList, h, List.mem_filter, List.mem_append]
  tauto

lemma mem_toggleList_twice (movieId x : Int) (l : List Int) :
    x ∈ toggleList movieId (toggleList movieId l) ↔ x ∈ l := by
  by_cases hm : movieId ∈ l <;> by_cases hx : x = movieId <;>
    simp only [mem_toggleList_iff, hm, hx] <;> tauto

lemma toggleList_nodup (movieId : Int) (l : List Int) (hl : l.Nodup) :
    (toggleList movieId l).Nodup := by
  by_cases h : movieId ∈ l
  · simpa [toggleList, h] using hl.filter _
  · simp [toggleList, h, List.nodup_append, List.disjoint_singleton]
    exact hl

lemma toggleBookmark_bookmarks (movieId : Int) (w : World) :
    ((toggleBookmark movieId w).1).app.bookmarks =
      toggleList movieId w.app.bookmarks := rfl

lemma toggleBookmark_storage (movieId : Int) (w : World) :
    ((toggleBookmark movieId w).1).storage =
      some ((toggleBookmark movieId w).1).app.bookmarks := rfl

lemma applyToggles_cons (i : Int) (rest : List Int) (w : World) :
    applyToggles (i :: rest) w = applyToggles rest ((toggleBookmark i w).1) := rfl

lemma applyToggles_storage (ids : List Int) (w : World)
    (h : w.storage = some w.app.bookmarks) :
    (applyToggles ids w).storage = some (applyToggles ids w).app.bookmarks := by
  induction ids generalizing w with
  | nil => exact h
  | cons i rest ih =>
      rw [applyToggles_cons]
      exact ih _ (toggleBookmark_storage i w)

lemma applyToggles_nodup (ids : List Int) (w : World)
    (h : w.app.bookmarks.Nodup) :
    (applyToggles ids w).app.bookmarks.Nodup := by
  induction ids generalizing w with
  | nil => exact h
  | cons i rest ih =>
      rw [applyToggles_cons]
      exact ih _ (by rw [toggleBookmark_bookmarks]; exact toggleList_nodup i _ h)

/-- C1: with the bookmarks-only flag active, the displayed list is the
fetched list filtered to items whose identifier is a member of the Bookmark
Set (`List.filter`, which keeps the original relative order — the second
conjunct records that the displayed list is a sublist of the fetched list);
with the flag inactive, the displayed list is the fetched list unmodified. -/
theorem displayedMovies_filter_spec (s : AppState) :
    (displayedMovies s =
      if s.showBookmarksOnly then
        s.movies.filter (fun movie => decide (movie.id ∈ s.bookmarks))
      else s.movies) ∧
    (displayedMovies s).Sublist s.movies := by
  refine ⟨?_, ?_⟩ <;> cases hb : s.showBookmarksOnly <;>
    simp [displayedMovies, hb, List.contains]

/-- C2: toggling a bookmark twice with the same identifier returns the
Bookmark Set — the set of identifiers in the bookmarks list — to its
original state: membership after a double toggle agrees with membership
before, for every identifier. -/
theorem toggleBookmark_involution (w : World) (movieId x : Int) :
    x ∈ ((toggleBookmark movieId ((toggleBookmark movieId w).1)).1).app.bookmarks
      ↔ x ∈ w.app.bookmarks := by
  rw [toggleBookmark_bookmarks, toggleBookmark_bookmarks]
  exact mem_toggleList_twice movieId x w.app.bookmarks

/-- C9: the toast text produced by a toggle is determined by the pre-toggle
membership state: it is the removal text exactly when the identifier was in
the bookmarks list, and the addition text exactly when it was not. -/
theorem toggleBookmark_toast (movieId : Int) (w : World) :
    ((toggleBookmark movieId w).2 = removedToast ↔ movieId ∈ w.app.bookmarks) ∧
    ((toggleBookmark movieId w).2 = addedToast ↔ movieId ∉ w.app.bookmarks) := by
  have hne : removedToast ≠ addedToast := by decide
  by_cases h : movieId ∈ w.app.bookmarks <;>
    simp [toggleBookmark, List.contains, h, hne, hne.symm]

/-- C10: a bookmark toggle changes only the bookmarks list and its storage
mirror; the movie list, loading flag, error message, search text, selected
movie and bookmarks-only flag are all unchanged. -/
theorem toggleBookmark_frame (movieId : Int) (w : World) :
    ((toggleBookmark movieId w).1).app.movies = w.app.movies ∧
    ((toggleBookmark movieId w).1).app.loading = w.app.loading ∧
    ((toggleBookmark movieId w).1).app.error = w.app.error ∧
    ((toggleBookmark movieId w).1).app.searchQuery = w.app.searchQuery ∧
    ((toggleBookmark movieId w).1).app.selectedMovie = w.app.selectedMovie ∧
    ((toggleBookmark movieId w).1).app.showBookmarksOnly = w.app.showBookmarksOnly :=
  ⟨rfl, rfl, rfl, rfl, rfl, rfl⟩

/-- C3: after any nonempty finite sequence of bookmark toggles, the storage
slot holds exactly the in-memory bookmarks list — each toggle writes the full
resulting list to storage, so storage and memory never drift. -/
theorem applyToggles_storage_sync (w : World) (ids : List Int) (h : ids ≠ []) :
    (applyToggles ids w).storage = some (applyToggles ids w).app.bookmarks := by
  cases ids with
  | nil => exact absurd rfl h
  | cons i rest =>
      rw [applyToggles_cons]
      exact applyToggles_storage rest _ (toggleBookmark_storage i w)

/-- Witness for C3 at a concrete world and toggle sequence. -/
theorem applyToggles_storage_sync_witness :
    ([7] : List Int) ≠ [] ∧
    (applyToggles [7] { app := initialState, storage := none }).storage =
      some (applyToggles [7] { app := initialState, storage := none }).app.bookmarks :=
  ⟨by decide, applyToggles_storage_sync { app := initialState, storage := none }
    [7] (by decide)⟩

/-- C4: with the access credential absent, startup enters the
configuration-error state and issues no network request, and both the
trending fetch and the search fetch short-circuit with no network request
and the same configuration error. -/
theorem missing_api_key_no_fetch (outcome tOut sOut : FetchResult)
    (storage : Option (List Int)) (q : String) (s : AppState) :
    (startup none outcome storage).1.app.error = some apiKeyMissingError ∧
    (startup none outcome storage).2 = [] ∧
    (fetchTrendingMovies none outcome s).1.error = some apiKeyMissingError ∧
    (fetchTrendingMovies none outcome s).2 = [] ∧
    (searchMovies none q tOut sOut s).1.error = some apiKeyMissingError ∧
    (searchMovies none q tOut sOut s).2 = [] :=
  ⟨rfl, rfl, rfl, rfl, rfl, rfl⟩

/-- C5: with the credential present, a blank or whitespace-only query makes
the search operation behave exactly like the trending fetch — same resulting
state, same issued requests (so no empty-query search request), and hence
the same displayed list. -/
theorem searchMovies_blank_query (k q : String) (tOut sOut : FetchResult)
    (s : AppState) (h : jsTrim q = "") :
    searchMovies (some k) q tOut sOut s = fetchTrendingMovies (some k) tOut s ∧
    displayedMovies (searchMovies (some k) q tOut sOut s).1 =
      displayedMovies (fetchTrendingMovies (some k) tOut s).1 := by
  have h1 : searchMovies (some k) q tOut sOut s =
      fetchTrendingMovies (some k) tOut s := by
    simp [searchMovies, h]
  exact ⟨h1, by rw [h1]⟩

/-- Witness for C5 at a whitespace-only query. -/
theorem searchMovies_blank_query_witness :
    jsTrim "  " = "" ∧
    (searchMovies (some "k") "  " FetchResult.failure FetchResult.failure
        initialState =
      fetchTrendingMovies (some "k") FetchResult.failure initialState ∧
    displayedMovies (searchMovies (some "k") "  " FetchResult.failure
        FetchResult.failure initialState).1 =
      displayedMovies (fetchTrendingMovies (some "k") FetchResult.failure
        initialState).1) :=
  ⟨by decide, searchMovies_blank_query "k" "  " FetchResult.failure
    FetchResult.failure initialState (by decide)⟩

/-- C6 counterexample: with the credential missing and the storage slot
holding `[5]`, the startup early return skips the storage read, so the
in-memory bookmarks list is not the stored `[5]` — the load is not
unconditional. -/
theorem startup_missing_key_skips_bookmark_load :
    (startup none FetchResult.failure (some [5])).1.app.bookmarks ≠ [5] := by
  decide

/-- C6 amended: with the credential present, startup loads the Bookmark Set
from the storage slot (absent slot → empty set); with the credential
missing, the early return skips the load and the Bookmark Set stays empty
even when the slot is nonempty. -/
theorem startup_bookmarks_load (k : String) (outcome : FetchResult)
    (storage : Option (List Int)) :
    (startup (some k) outcome storage).1.app.bookmarks = storage.getD [] ∧
    (startup none outcome storage).1.app.bookmarks = [] := by
  cases storage <;> cases outcome <;> exact ⟨rfl, rfl⟩

/-- C7 counterexample: a trending fetch that resolves successfully with zero
results leaves the error slot clear (`none`), not a no-results message, while
the movie list becomes empty — the claim fails for the trending fetch. -/
theorem trending_empty_results_no_error :
    (fetchTrendingMovies (some "k") (FetchResult.success []) initialState).1.error
        = none ∧
    (fetchTrendingMovies (some "k") (FetchResult.success []) initialState).1.movies
        = [] :=
  ⟨rfl, rfl⟩

/-- C7 amended: a search fetch (nonblank query) that resolves successfully
with zero results sets the error slot to the distinct no-results text and
leaves the movie list empty, and that text differs from the transport
failure text; a trending fetch with zero results leaves the movie list
empty with the error slot clear. -/
theorem empty_results_messages (k q : String) (tOut : FetchResult)
    (s : AppState) (h : ¬ jsTrim q = "") :
    (searchMovies (some k) q tOut (FetchResult.success []) s).1.error =
        some noSearchResultsError ∧
    (searchMovies (some k) q tOut (FetchResult.success []) s).1.movies = [] ∧
    noSearchResultsError ≠ searchFailError ∧
    (fetchTrendingMovies (some k) (FetchResult.success []) s).1.error = none ∧
    (fetchTrendingMovies (some k) (FetchResult.success []) s).1.movies = [] := by
  refine ⟨?_, ?_, by decide, rfl, rfl⟩ <;> simp [searchMovies, h]

/-- Witness for C7 (amended) at a concrete nonblank query. -/
theorem empty_results_messages_witness :
    ¬ jsTrim "a" = "" ∧
    ((searchMovies (some "k") "a" FetchResult.failure
          (FetchResult.success []) initialState).1.error =
        some noSearchResultsError ∧
    (searchMovies (some "k") "a" FetchResult.failure
          (FetchResult.success []) initialState).1.movies = [] ∧
    noSearchResultsError ≠ searchFailError ∧
    (fetchTrendingMovies (some "k") (FetchResult.success [])
          initialState).1.error = none ∧
    (fetchTrendingMovies (some "k") (FetchResult.success [])
          initialState).1.movies = []) :=
  ⟨by decide, by
    have := empty_results_messages "k" "a" FetchResult.failure initialState
      (by decide)
    exact ⟨this.1, this.2.1, this.2.2.1, this.2.2.2.1, this.2.2.2.2⟩⟩

/-- C8: every reachable Bookmark Set is duplicate-free — starting from the
startup-loaded state over a well-formed storage slot, any finite sequence of
toggles (the only mutation) preserves the no-duplicates property. -/
theorem bookmarks_nodup_reachable (apiKey : Option String)
    (outcome : FetchResult) (storage : Option (List Int)) (ids : List Int)
    (h : storageNodup storage) :
    (applyToggles ids (startup apiKey outcome storage).1).app.bookmarks.Nodup := by
  apply applyToggles_nodup
  cases apiKey with
  | none => exact List.nodup_nil
  | some k =>
      cases storage with
      | none => cases outcome <;> exact List.nodup_nil
      | some saved => exact h saved rfl

/-- Witness for C8 at a concrete startup and toggle sequence. -/
theorem bookmarks_nodup_reachable_witness :
    storageNodup (some [1, 2]) ∧
    (applyToggles [1, 1, 3]
      (startup (some "k") (FetchResult.success [])
        (some [1, 2])).1).app.bookmarks.Nodup :=
  have hs : storageNodup (some [1, 2]) := fun l hl => by
    injection hl with h2
    rw [← h2]; decide
  ⟨hs, bookmarks_nodup_reachable (some "k") (FetchResult.success [])
    (some [1, 2]) [1, 1, 3] hs⟩

end MovieVault
